import Mathlib

/-!
Verification development for the GradCAS applicant PDF downloader
(`download_gradcas.py`) and the batch PDF-to-text converter
(`pdf_to_text_batch.py`).

The Python sources are shallowly embedded: pure string manipulation becomes
Lean functions on `String`/`List Char`; the browser session and filesystem
are modelled as explicit per-applicant traces (what each UI step and the
destination file would report), and the batch driver becomes a recursion
over the roster paired with those traces.  Python's ASCII-range behaviour of
`str.lower`, `str.strip` and the regex class `\w` is modelled directly over
characters (the sources only ever feed ASCII names through these paths).
-/

set_option maxRecDepth 8000

/-! ## Basic string helpers (models of Python primitives) -/

/-- Model of Python `str.strip()`: drop whitespace from both ends. -/
def pyStrip (s : String) : String :=
  String.mk (((s.data.dropWhile Char.isWhitespace).reverse.dropWhile Char.isWhitespace).reverse)

/-- Model of Python `str.lower()` (ASCII core). -/
def pyLower (s : String) : String :=
  String.mk (s.data.map Char.toLower)

/-- Does `needle` occur at the head of `hay`? -/
def startsWithChars : List Char → List Char → Bool
  | [], _ => true
  | _ :: _, [] => false
  | a :: as, b :: bs => a == b && startsWithChars as bs

/-- Does `needle` occur as a contiguous run anywhere in `hay`? -/
def hasSubChars (needle : List Char) : List Char → Bool
  | [] => startsWithChars needle []
  | b :: bs => startsWithChars needle (b :: bs) || hasSubChars needle bs

/-- Model of Python `needle in hay` on strings (substring test). -/
def inStr (needle hay : String) : Bool :=
  hasSubChars needle.data hay.data

/-- Index of the first element satisfying `p`, mirroring a Python
`for`-loop with `break`. -/
def firstMatchIdx (p : α → Bool) : List α → Option Nat
  | [] => none
  | a :: as => if p a then some 0 else (firstMatchIdx p as).map (· + 1)

/-! ## Name normalizer (`safe_filename` in `download_gradcas.py`) -/

/-- A regex word character, the ASCII core of Python `\w`. -/
def isWordChar (c : Char) : Bool :=
  c.isAlphanum || c == '_'

/-- Membership in the character class `[\w\-]` kept by `re.sub` in `clean`. -/
def wordOrHyphen (c : Char) : Bool :=
  isWordChar c || c == '-'

/-- One character of `re.sub(r'[^\w\-]', '_', s)`. -/
def cleanChar (c : Char) : Char :=
  if wordOrHyphen c then c else '_'

/-- The inner `clean` of `safe_filename`: `re.sub(r'[^\w\-]', '_', s)`. -/
def clean (s : String) : String :=
  String.mk (s.data.map cleanChar)

/-- `safe_filename(first, last)` from `download_gradcas.py`. -/
def safe_filename (first last : String) : String :=
  clean last ++ "_" ++ clean first ++ ".pdf"

/-! ## Row selection inside `search_and_open_applicant` -/

/-- Why row selection failed, mirroring the two distinct messages printed by
`search_and_open_applicant`. -/
inductive SelectFailure where
  /-- `No results for last name <last>` (zero rows in the results table). -/
  | noResults (last : String)
  /-- `<first> <last> not uniquely identified among <count> rows`. -/
  | notUniquelyIdentified (first last : String) (count : Nat)
deriving DecidableEq

/-- The per-row test of the selection loop:
`first.lower() in text.lower() and last.lower() in text.lower()` applied to
`text = row.text_content().strip()`. -/
def rowMatches (first last : String) (text : String) : Bool :=
  let t := pyLower (pyStrip text)
  inStr (pyLower first) t && inStr (pyLower last) t

/-- The pure row-selection core of `search_and_open_applicant`
(lines 207-235): zero rows fail with a no-results reason; otherwise the
first row matching both names wins; with no match a single row is taken by
default and two or more rows fail as not uniquely identified. -/
def selectRow (first last : String) (rowTexts : List String) :
    Except SelectFailure Nat :=
  if rowTexts.length = 0 then
    Except.error (SelectFailure.noResults last)
  else
    match firstMatchIdx (rowMatches first last) rowTexts with
    | some i => Except.ok i
    | none =>
      if rowTexts.length = 1 then Except.ok 0
      else Except.error (SelectFailure.notUniquelyIdentified first last rowTexts.length)

/-- Recognizer for the reason the claim attributes to all no-match failures. -/
def reasonIsNotUnique : SelectFailure → Bool
  | SelectFailure.notUniquelyIdentified _ _ _ => true
  | _ => false

/-! ## Applicants and roster loading (`load_applicants`) -/

/-- One roster row: first and last name, as loaded from the spreadsheet. -/
structure Applicant where
  first : String
  last : String
deriving DecidableEq

/-- The destination path `DOWNLOAD_DIR / fname` computed in `main`
(lines 514-515), as a list of path segments under `root`. -/
def destPath (root : List String) (a : Applicant) : List String :=
  root ++ [safe_filename a.first a.last]

/-- `str(cell).strip() if cell else ""` applied to a spreadsheet cell
(`None` and the empty string are falsy). -/
def cellStr : Option String → String
  | none => ""
  | some s => if s.isEmpty then "" else pyStrip s

/-- The structured content of the `sys.exit` message in `load_applicants`:
the column that was not found and the header row that was found. -/
structure RosterError where
  missingColumn : String
  foundColumns : List (Option String)
deriving DecidableEq

/-- `load_applicants` from `download_gradcas.py` (lines 132-150): locate the
two configured header columns (exiting with a descriptive error if one is
missing, the first-name column checked first), then collect the data rows
whose stripped first or last name is nonempty. -/
def load_applicants (headers : List (Option String))
    (rows : List (List (Option String))) (firstCol lastCol : String) :
    Except RosterError (List Applicant) :=
  match firstMatchIdx (fun c => decide (c = some firstCol)) headers with
  | none => Except.error (RosterError.mk firstCol headers)
  | some fi =>
    match firstMatchIdx (fun c => decide (c = some lastCol)) headers with
    | none => Except.error (RosterError.mk lastCol headers)
    | some li =>
      Except.ok (rows.filterMap (fun row =>
        let first := cellStr (row.getD fi none)
        let last := cellStr (row.getD li none)
        if first ≠ "" ∨ last ≠ "" then some (Applicant.mk first last) else none))

/-! ## Per-applicant session traces

The live browser session is external; each navigation step of
`download_gradcas.py` is modelled by what the session would report to it:
a boolean step result, or an uncaught exception where the Python code has
a path that lets one propagate to the per-applicant `except Exception`
boundary in `main`. -/

/-- What the session does during `search_and_open_applicant`: whether the
search-box phase (the guarded `try` block) succeeds, the text contents of
the result rows, and whether the final row click raises an uncaught
exception (its fallback click is not guarded). -/
structure SearchTrace where
  searchBoxOk : Bool
  rowTexts : List String
  clickRaise : Option String
deriving DecidableEq

/-- `search_and_open_applicant` as a function of its trace: `ok b` is its
boolean return value, `error m` an exception escaping to `main`. -/
def searchOpen (first last : String) (t : SearchTrace) : Except String Bool :=
  if !t.searchBoxOk then Except.ok false
  else
    match selectRow first last t.rowTexts with
    | Except.error _ => Except.ok false
    | Except.ok _ =>
      match t.clickRaise with
      | some m => Except.error m
      | none => Except.ok true

/-- The full per-applicant environment seen by one iteration of the loop in
`main`: the destination file state at the skip check (`none` = absent,
`some n` = exists with size `n`) and the result of each navigation step.
Steps whose Python implementation catches every exception are `Bool`;
steps with an unguarded path are `Except String Bool`. -/
structure AppTrace where
  destState : Option Nat
  goBackRaise : Option String
  search : SearchTrace
  sidebarOk : Bool
  appRow : Except String Bool
  attachTab : Except String Bool
  expandPdf : Except String Bool
  downloadOk : Bool

/-- How one applicant ends up in the report of `main`. -/
inductive Outcome where
  /-- `dest.exists()` was true: "Already downloaded, skipping". -/
  | skipped
  /-- every step and the download succeeded. -/
  | success
  /-- the applicant is recorded in `failed` with this reason suffix. -/
  | failure (reason : String)
deriving DecidableEq

/-- One iteration of the applicant loop in `main` (lines 511-553): the skip
check, then each navigation step in order, each failure branch appending
its reason, and the `except Exception` boundary turning an uncaught
exception into a failure entry. -/
def processApplicant (a : Applicant) (t : AppTrace) : Outcome :=
  if t.destState.isSome then Outcome.skipped
  else
    match t.goBackRaise with
    | some m => Outcome.failure ("error: " ++ m)
    | none =>
      match searchOpen a.first a.last t.search with
      | Except.error m => Outcome.failure ("error: " ++ m)
      | Except.ok false => Outcome.failure "not found"
      | Except.ok true =>
        if !t.sidebarOk then Outcome.failure "Applications sidebar missing"
        else
          match t.appRow with
          | Except.error m => Outcome.failure ("error: " ++ m)
          | Except.ok false => Outcome.failure "could not open application"
          | Except.ok true =>
            match t.attachTab with
            | Except.error m => Outcome.failure ("error: " ++ m)
            | Except.ok false => Outcome.failure "ATTACHMENTS tab missing"
            | Except.ok true =>
              match t.expandPdf with
              | Except.error m => Outcome.failure ("error: " ++ m)
              | Except.ok false => Outcome.failure "APPLICATION PDF section missing"
              | Except.ok true =>
                if t.downloadOk then Outcome.success
                else Outcome.failure "download failed"

/-- The `f"{first} {last}"` identifier used in both outcome lists. -/
def applicantLabel (a : Applicant) : String :=
  a.first ++ " " ++ a.last

def isFailure : Outcome → Bool
  | Outcome.failure _ => true
  | _ => false

/-- The entry a failing applicant contributes to the `failed` list. -/
def failEntry (p : Applicant × AppTrace) : Option String :=
  match processApplicant p.1 p.2 with
  | Outcome.failure r => some (applicantLabel p.1 ++ " - " ++ r)
  | _ => none

/-- The applicant loop of `main`: each applicant is appended to exactly one
of the two lists (`succeeded`, `failed`), in roster order. -/
def runBatch : List (Applicant × AppTrace) → List String × List String
  | [] => ([], [])
  | (a, t) :: rest =>
    let r := runBatch rest
    match processApplicant a t with
    | Outcome.failure reason => (r.1, (applicantLabel a ++ " - " ++ reason) :: r.2)
    | _ => (applicantLabel a :: r.1, r.2)

/-- True when processing got past every navigation step, i.e. the download
(the only document fetch) was actually attempted. -/
def docAttempted (a : Applicant) (t : AppTrace) : Bool :=
  !t.destState.isSome && t.goBackRaise.isNone
    && (match searchOpen a.first a.last t.search with
        | Except.ok true => true
        | _ => false)
    && t.sidebarOk
    && (match t.appRow with | Except.ok true => true | _ => false)
    && (match t.attachTab with | Except.ok true => true | _ => false)
    && (match t.expandPdf with | Except.ok true => true | _ => false)

/-- Result of a whole run of `main`: the `sys.exit` error if roster loading
failed, whether the browser session was started (the Playwright launch
comes after `load_applicants` in the source), and the two outcome lists. -/
structure RunResult where
  exitedWith : Option RosterError
  browserStarted : Bool
  succeeded : List String
  failed : List String
deriving DecidableEq

/-- `main` from `download_gradcas.py`: load the roster (exiting on a missing
column before any browser session exists), then run the applicant loop
against the session environment `env`. -/
def mainRun (headers : List (Option String)) (rows : List (List (Option String)))
    (firstCol lastCol : String) (env : List AppTrace) : RunResult :=
  match load_applicants headers rows firstCol lastCol with
  | Except.error e => RunResult.mk (some e) false [] []
  | Except.ok apps =>
    let report := runBatch (apps.zip env)
    RunResult.mk none true report.1 report.2

/-! ## Signed-URL extractor

`download_gradcas.py` downloads by clicking the viewer's save button; the
URL-extraction component described by the specification is not part of the
file, so it is modelled from the specification's words below. -/

/-- Value of one hex digit, if any. -/
def hexVal (c : Char) : Option Nat :=
  let n := c.toNat
  if 48 ≤ n ∧ n ≤ 57 then some (n - 48)
  else if 65 ≤ n ∧ n ≤ 70 then some (n - 65 + 10)
  else if 97 ≤ n ∧ n ≤ 102 then some (n - 97 + 10)
  else none

/-- Percent-decode a character list exactly once; malformed escapes are
kept literally. -/
def percentDecodeChars : List Char → List Char
  | [] => []
  | '%' :: a :: b :: rest =>
    match hexVal a, hexVal b with
    | some x, some y => Char.ofNat (16 * x + y) :: percentDecodeChars rest
    | _, _ => '%' :: percentDecodeChars (a :: b :: rest)
  | c :: rest => c :: percentDecodeChars rest

/-- Characters strictly before the first occurrence of `stop`. -/
def takeUntil (stop : Char) : List Char → List Char
  | [] => []
  | c :: rest => if c = stop then [] else c :: takeUntil stop rest

/-- Characters strictly after the first occurrence of `stop`, or `none` if
`stop` does not occur. -/
def dropAfter (stop : Char) : List Char → Option (List Char)
  | [] => none
  | c :: rest => if c = stop then some rest else dropAfter stop rest

/-- Split on a separator character. -/
def splitChar (sep : Char) : List Char → List (List Char)
  | [] => [[]]
  | c :: rest =>
    match splitChar sep rest with
    | [] => [[]]
    | h :: t => if c = sep then [] :: h :: t else (c :: h) :: t

/-- Value of the first `file=` query parameter among `key=value` pieces. -/
def fileParamValue : List (List Char) → Option (List Char)
  | [] => none
  | p :: ps =>
    match dropAfter '=' p with
    | none => fileParamValue ps
    | some v => if takeUntil '=' p = "file".data then some v else fileParamValue ps

/-- Modelled from the spec: the signed-URL extractor (§4.2) is absent from
`download_gradcas.py`; per the specification it takes the `source`
attribute string of shape `<viewer-path>?file=<url-encoded-target-url>[#fragment]`,
returns the `file` query parameter percent-decoded exactly once, and
returns `none` when the input is empty, has no query, or has no `file`
parameter. -/
def extractSignedUrl (s : String) : Option String :=
  if s.isEmpty then none
  else
    match dropAfter '?' (takeUntil '#' s.data) with
    | none => none
    | some query =>
      match fileParamValue (splitChar '&' query) with
      | none => none
      | some v => some (String.mk (percentDecodeChars v))

/-! ## PDF-to-text converter (`pdf_to_text_batch.py`) -/

/-- One PDF page as the converter observes it: the text direct extraction
would return (`page.get_text()`) and the text OCR would return
(`pytesseract.image_to_string` on the rendered page). -/
structure PdfPage where
  rawText : String
  ocrText : String

/-- The default of the `ocr_threshold` parameter of `extract_text_from_pdf`. -/
def ocrThresholdDefault : Nat := 50

/-- The per-page body of `extract_text_from_pdf` (lines 47-66): direct text
when the stripped extraction reaches the threshold, OCR when available,
a placeholder marker otherwise. -/
def pageOutput (ocrAvailable : Bool) (ocrThreshold : Nat) (pageNum : Nat)
    (p : PdfPage) : String :=
  let text := pyStrip p.rawText
  if ocrThreshold ≤ text.length then
    "--- Page " ++ toString pageNum ++ " ---\n" ++ text
  else if ocrAvailable then
    let ocrText := pyStrip p.ocrText
    if !ocrText.isEmpty then
      "--- Page " ++ toString pageNum ++ " [OCR] ---\n" ++ ocrText
    else
      "--- Page " ++ toString pageNum ++ " [OCR: no text detected] ---"
  else
    "--- Page " ++ toString pageNum ++ " [scanned, OCR not available] ---"

/-- When the code reaches `pytesseract.image_to_string`: exactly on pages
whose stripped direct text is below the threshold while OCR is importable. -/
def ocrAttempted (ocrAvailable : Bool) (ocrThreshold : Nat) (p : PdfPage) : Bool :=
  decide ((pyStrip p.rawText).length < ocrThreshold) && ocrAvailable

/-- `extract_text_from_pdf`: pages joined by a blank line, numbered from 1. -/
def extract_text_from_pdf (ocrAvailable : Bool) (ocrThreshold : Nat)
    (pages : List PdfPage) : String :=
  String.intercalate "\n\n"
    (pages.enum.map (fun pr => pageOutput ocrAvailable ocrThreshold (pr.1 + 1) pr.2))

/-! ## Example traces used by witnesses and counterexamples -/

/-- A fully successful session trace whose result table shows `rowText`. -/
def exTraceOk (rowText : String) : AppTrace :=
  AppTrace.mk none none (SearchTrace.mk true [rowText] none) true
    (Except.ok true) (Except.ok true) (Except.ok true) true

/-- A trace where the search returns no result rows. -/
def exTraceNoRows : AppTrace :=
  AppTrace.mk none none (SearchTrace.mk true [] none) true
    (Except.ok true) (Except.ok true) (Except.ok true) true

/-- A trace where navigation fully succeeds but the download fails. -/
def exTraceDownloadFail : AppTrace :=
  AppTrace.mk none none (SearchTrace.mk true ["Ana Lee"] none) true
    (Except.ok true) (Except.ok true) (Except.ok true) false

/-- A trace whose destination file exists (size 7) while every session step
would fail: the skip must not touch the session. -/
def exTraceSkip : AppTrace :=
  AppTrace.mk (some 7) none (SearchTrace.mk false [] none) false
    (Except.ok false) (Except.ok false) (Except.ok false) false

/-- A trace whose destination file exists with size zero. -/
def exTraceSkipZero : AppTrace :=
  AppTrace.mk (some 0) none (SearchTrace.mk true ["Ana Lee"] none) true
    (Except.ok true) (Except.ok true) (Except.ok true) true

def exPre : List (Applicant × AppTrace) :=
  [(Applicant.mk "Bob" "Smith", exTraceOk "Bob Smith")]

def exSuf : List (Applicant × AppTrace) :=
  [(Applicant.mk "Cy" "Cruz", exTraceOk "Cy Cruz")]

def exFailPair : Applicant × AppTrace :=
  (Applicant.mk "Ana" "Lee", exTraceNoRows)

def exSkipPair : Applicant × AppTrace :=
  (Applicant.mk "Ana" "Lee", exTraceSkip)

/-- A page whose direct extraction is comfortably above the OCR threshold. -/
def exPage : PdfPage :=
  PdfPage.mk "This statement of purpose describes my research interests in considerable detail." ""

/-! ## Formalized claim statements refuted by counterexamples -/

/-- The skip rule as claimed: an applicant is skipped only when the
destination file exists with nonzero size. -/
def skipClaimRequiresNonzeroSize : Prop :=
  ∀ (a : Applicant) (t : AppTrace), processApplicant a t = Outcome.skipped →
    ∃ n, t.destState = some n ∧ 0 < n

/-- The classification as claimed: the Failed bucket holds only applicants
that could not be located/opened before any document attempt. -/
def failedOnlyBeforeDocAttempt : Prop :=
  ∀ (a : Applicant) (t : AppTrace) (r : String),
    processApplicant a t = Outcome.failure r → docAttempted a t = false

/-- The filesystem layout as claimed: a per-applicant directory containing
`application.pdf`. -/
def perApplicantDirLayout : Prop :=
  ∀ (root : List String) (a : Applicant),
    destPath root a = root ++ [clean a.last ++ "_" ++ clean a.first, "application.pdf"]

/-! ## Helper lemmas -/

theorem firstMatchIdx_none_iff (p : α → Bool) (l : List α) :
    firstMatchIdx p l = none ↔ ∀ x ∈ l, p x = false := by
  induction l with
  | nil => simp [firstMatchIdx]
  | cons a as ih =>
    by_cases h : p a
    · simp [firstMatchIdx, h]
    · simp [firstMatchIdx, h, Option.map_eq_none', ih]

theorem firstMatchIdx_some_spec (p : α → Bool) (d : α) :
    ∀ (l : List α) (i : Nat), firstMatchIdx p l = some i →
      i < l.length ∧ p (l.getD i d) = true ∧ ∀ j, j < i → p (l.getD j d) = false := by
  intro l
  induction l with
  | nil => intro i h; simp [firstMatchIdx] at h
  | cons a as ih =>
    intro i h
    by_cases hp : p a
    · simp [firstMatchIdx, hp] at h
      subst h
      exact ⟨Nat.succ_pos _, by simpa using hp, fun j hj => absurd hj (Nat.not_lt_zero j)⟩
    · simp [firstMatchIdx, hp, Option.map_eq_some'] at h
      obtain ⟨k, hk, rfl⟩ := h
      obtain ⟨hlt, hpk, hmin⟩ := ih k hk
      refine ⟨by simpa using Nat.succ_lt_succ hlt, by simpa using hpk, ?_⟩
      intro j hj
      cases j with
      | zero => simpa using hp
      | succ m => simpa using hmin m (Nat.lt_of_succ_lt_succ hj)

theorem firstMatchIdx_decide_none {β : Type} [DecidableEq β] (a : β) (l : List β)
    (h : a ∉ l) : firstMatchIdx (fun c => decide (c = a)) l = none := by
  rw [firstMatchIdx_none_iff]
  intro x hx
  simp only [decide_eq_false_iff_not]
  rintro rfl
  exact h hx

theorem firstMatchIdx_decide_mem {β : Type} [DecidableEq β] (a : β) (l : List β)
    (h : a ∈ l) : ∃ i, firstMatchIdx (fun c => decide (c = a)) l = some i := by
  cases hf : firstMatchIdx (fun c => decide (c = a)) l with
  | some i => exact ⟨i, rfl⟩
  | none =>
    rw [firstMatchIdx_none_iff] at hf
    have := hf a h
    simp at this

theorem clean_data (s : String) : (clean s).data = s.data.map cleanChar := rfl

theorem cleanChar_safe (c : Char) : wordOrHyphen (cleanChar c) = true := by
  by_cases h : wordOrHyphen c = true
  · simp [cleanChar, h]
  · simp [cleanChar, h]
    decide

theorem cleanChar_idem (c : Char) : cleanChar (cleanChar c) = cleanChar c := by
  by_cases h : wordOrHyphen c = true
  · simp [cleanChar, h]
  · simp [cleanChar, h]

theorem strData_append (s t : String) : (s ++ t).data = s.data ++ t.data := by
  cases s; cases t; rfl

theorem runBatch_fst (xs : List (Applicant × AppTrace)) :
    (runBatch xs).1 =
      (xs.filter (fun p => !isFailure (processApplicant p.1 p.2))).map
        (fun p => applicantLabel p.1) := by
  induction xs with
  | nil => rfl
  | cons x rest ih =>
    obtain ⟨a, t⟩ := x
    cases h : processApplicant a t <;>
      simp [runBatch, h, isFailure, List.filter_cons, ih]

theorem runBatch_snd (xs : List (Applicant × AppTrace)) :
    (runBatch xs).2 = xs.filterMap failEntry := by
  induction xs with
  | nil => rfl
  | cons x rest ih =>
    obtain ⟨a, t⟩ := x
    cases h : processApplicant a t <;>
      simp [runBatch, h, failEntry, List.filterMap_cons, ih]

theorem runBatch_append (xs ys : List (Applicant × AppTrace)) :
    runBatch (xs ++ ys) =
      ((runBatch xs).1 ++ (runBatch ys).1, (runBatch xs).2 ++ (runBatch ys).2) := by
  induction xs with
  | nil => simp [runBatch]
  | cons x rest ih =>
    obtain ⟨a, t⟩ := x
    cases h : processApplicant a t <;> simp [runBatch, h, ih]

theorem runBatch_length (xs : List (Applicant × AppTrace)) :
    (runBatch xs).1.length + (runBatch xs).2.length = xs.length := by
  induction xs with
  | nil => rfl
  | cons x rest ih =>
    obtain ⟨a, t⟩ := x
    cases h : processApplicant a t <;> simp [runBatch, h] <;> omega

theorem takeUntil_subset (stop : Char) (l : List Char) :
    ∀ c ∈ takeUntil stop l, c ∈ l := by
  induction l with
  | nil => simp [takeUntil]
  | cons a as ih =>
    by_cases h : a = stop
    · simp [takeUntil, h]
    · intro c hc
      simp only [takeUntil, if_neg h, List.mem_cons] at hc
      rcases hc with rfl | hc
      · exact List.mem_cons_self _ _
      · exact List.mem_cons_of_mem _ (ih c hc)

theorem dropAfter_none (stop : Char) (l : List Char) (h : stop ∉ l) :
    dropAfter stop l = none := by
  induction l with
  | nil => rfl
  | cons a as ih =>
    have ha : ¬ a = stop := by
      rintro rfl
      exact h (List.mem_cons_self _ _)
    simp only [dropAfter, if_neg ha]
    exact ih (fun hm => h (List.mem_cons_of_mem _ hm))

theorem extractSignedUrl_no_query (s : String) (h : '?' ∉ s.data) :
    extractSignedUrl s = none := by
  have hq : '?' ∉ takeUntil '#' s.data :=
    fun hm => h (takeUntil_subset '#' s.data '?' hm)
  have hd := dropAfter_none '?' (takeUntil '#' s.data) hq
  by_cases he : s.isEmpty
  · simp [extractSignedUrl, he]
  · simp [extractSignedUrl, he, hd]

/-! ## Claim C1: the batch never halts on a single applicant's failure -/

/-- C1: a failing applicant (navigation-step failure or exception) never
terminates the batch: it contributes exactly one entry to the `failed`
list, carrying a reason, and the rest of the roster is processed exactly
as it would be on its own, in roster order. -/
theorem batch_never_halts (pre suf : List (Applicant × AppTrace))
    (a : Applicant) (t : AppTrace) (r : String)
    (h : processApplicant a t = Outcome.failure r) :
    (runBatch (pre ++ (a, t) :: suf)).1 = (runBatch pre).1 ++ (runBatch suf).1
    ∧ (runBatch (pre ++ (a, t) :: suf)).2
        = (runBatch pre).2 ++ (applicantLabel a ++ " - " ++ r) :: (runBatch suf).2
    ∧ (runBatch (pre ++ (a, t) :: suf)).1.length
        + (runBatch (pre ++ (a, t) :: suf)).2.length
        = pre.length + 1 + suf.length := by
  have hc : runBatch ((a, t) :: suf)
      = ((runBatch suf).1, (applicantLabel a ++ " - " ++ r) :: (runBatch suf).2) := by
    simp [runBatch, h]
  have happ := runBatch_append pre ((a, t) :: suf)
  refine ⟨?_, ?_, ?_⟩
  · rw [happ]
    simp [hc]
  · rw [happ]
    simp [hc]
  · rw [happ]
    simp only [hc, List.length_append, List.length_cons]
    have h1 := runBatch_length pre
    have h2 := runBatch_length suf
    simp only [List.length_append] at h1 h2 ⊢
    omega

/-- Witness for `batch_never_halts`: a roster of three applicants whose
middle applicant fails with "not found"; both neighbours are still
processed. -/
theorem batch_never_halts_witness :
    processApplicant exFailPair.1 exFailPair.2 = Outcome.failure "not found"
    ∧ ((runBatch (exPre ++ exFailPair :: exSuf)).1
          = (runBatch exPre).1 ++ (runBatch exSuf).1
      ∧ (runBatch (exPre ++ exFailPair :: exSuf)).2
          = (runBatch exPre).2
              ++ (applicantLabel exFailPair.1 ++ " - " ++ "not found") :: (runBatch exSuf).2
      ∧ (runBatch (exPre ++ exFailPair :: exSuf)).1.length
          + (runBatch (exPre ++ exFailPair :: exSuf)).2.length
          = exPre.length + 1 + exSuf.length) :=
  ⟨rfl, batch_never_halts exPre exSuf exFailPair.1 exFailPair.2 "not found" rfl⟩

/-! ## Claim C2: row disambiguation -/

/-- C2 counterexample: on an empty result list the code fails with the
no-results reason, not the "not uniquely identified" reason the claim
assigns to the zero-row case. -/
theorem selectRow_zero_rows_reason :
    selectRow "Ana" "Lee" [] = Except.error (SelectFailure.noResults "Lee")
    ∧ reasonIsNotUnique (SelectFailure.noResults "Lee") = false := by
  constructor
  · rfl
  · rfl

/-- C2 (amended): `selectRow` scans rows in order and selects the first row
matching both names; with no match it selects the single row when exactly
one exists; zero rows fail with a no-results reason; two or more rows with
no match fail as not uniquely identified, selecting nothing. -/
theorem selectRow_characterization (first last : String) (rows : List String) :
    (∀ i, firstMatchIdx (rowMatches first last) rows = some i →
        selectRow first last rows = Except.ok i
        ∧ i < rows.length
        ∧ rowMatches first last (rows.getD i "") = true
        ∧ ∀ j, j < i → rowMatches first last (rows.getD j "") = false)
    ∧ (firstMatchIdx (rowMatches first last) rows = none → rows.length = 1 →
        selectRow first last rows = Except.ok 0)
    ∧ (rows = [] →
        selectRow first last rows = Except.error (SelectFailure.noResults last))
    ∧ (firstMatchIdx (rowMatches first last) rows = none → 2 ≤ rows.length →
        selectRow first last rows =
          Except.error (SelectFailure.notUniquelyIdentified first last rows.length)) := by
  refine ⟨?_, ?_, ?_, ?_⟩
  · intro i h
    obtain ⟨hlt, hp, hmin⟩ := firstMatchIdx_some_spec (rowMatches first last) "" rows i h
    have hne : ¬ rows.length = 0 := by omega
    exact ⟨by simp [selectRow, hne, h], hlt, hp, hmin⟩
  · intro h h1
    simp [selectRow, h, h1]
  · intro h
    subst h
    rfl
  · intro h h2
    have hne : ¬ rows.length = 0 := by omega
    have h1 : ¬ rows.length = 1 := by omega
    simp [selectRow, hne, h, h1]

/-- Witness for `selectRow_characterization`: among two rows the second is
the first (and only) one containing both "Ana" and "Lee", and it is
selected. -/
theorem selectRow_characterization_witness :
    firstMatchIdx (rowMatches "Ana" "Lee") ["Bob Smith", "Ana Lee"] = some 1
    ∧ (selectRow "Ana" "Lee" ["Bob Smith", "Ana Lee"] = Except.ok 1
        ∧ 1 < (["Bob Smith", "Ana Lee"] : List String).length
        ∧ rowMatches "Ana" "Lee" ((["Bob Smith", "Ana Lee"] : List String).getD 1 "") = true
        ∧ ∀ j, j < 1 →
            rowMatches "Ana" "Lee" ((["Bob Smith", "Ana Lee"] : List String).getD j "") = false) :=
  ⟨by decide,
   (selectRow_characterization "Ana" "Lee" ["Bob Smith", "Ana Lee"]).1 1 (by decide)⟩

/-! ## Claim C3: resume-by-existing-file skip rule -/

/-- C3 counterexample: a destination file that exists with size zero is
still skipped and marked succeeded; the code tests only `dest.exists()`,
never the size required by the claim. -/
theorem skip_zero_size_counterexample : ¬ skipClaimRequiresNonzeroSize := by
  intro h
  obtain ⟨n, hn, hpos⟩ := h (Applicant.mk "Ana" "Lee") exTraceSkipZero rfl
  simp [exTraceSkipZero] at hn
  omega

/-- C3 (amended): before processing an applicant the driver checks whether
the destination file already exists (of any size, zero included); if so the
applicant is marked succeeded without any session interaction — the outcome
is independent of every session step — and, the run having a single
document kind, the skip covers the applicant's whole processing. -/
theorem skip_existing_dest (a : Applicant) (t : AppTrace)
    (h : t.destState.isSome = true) :
    processApplicant a t = Outcome.skipped
    ∧ runBatch [(a, t)] = ([applicantLabel a], [])
    ∧ ∀ t' : AppTrace, t'.destState = t.destState →
        processApplicant a t' = Outcome.skipped := by
  have hp : processApplicant a t = Outcome.skipped := by
    simp [processApplicant, h]
  refine ⟨hp, by simp [runBatch, hp], ?_⟩
  intro t' ht
  have h' : t'.destState.isSome = true := by rw [ht]; exact h
  simp [processApplicant, h']

/-- Witness for `skip_existing_dest`: a size-7 existing file and a trace in
which every session step would fail; the applicant is still skipped and
recorded as succeeded. -/
theorem skip_existing_dest_witness :
    exTraceSkip.destState.isSome = true
    ∧ processApplicant (Applicant.mk "Ana" "Lee") exTraceSkip = Outcome.skipped
    ∧ runBatch [(Applicant.mk "Ana" "Lee", exTraceSkip)] = (["Ana Lee"], []) :=
  ⟨rfl, (skip_existing_dest (Applicant.mk "Ana" "Lee") exTraceSkip rfl).1,
   (skip_existing_dest (Applicant.mk "Ana" "Lee") exTraceSkip rfl).2.1⟩

/-! ## Claim C4: the signed-URL extractor (modelled from the spec) -/

/-- C4: `extractSignedUrl` recovers the percent-decoded (exactly once)
target URL from a viewer source string, and returns `none` on an empty
input, on an input with no query part, and when the `file` parameter is
absent; in particular it decodes the specification's example. -/
theorem extractSignedUrl_spec (s : String) (h : '?' ∉ s.data) :
    extractSignedUrl "viewer.html?file=https%3A%2F%2Fs3.example.com%2Fa.pdf#view=fitH"
        = some "https://s3.example.com/a.pdf"
    ∧ extractSignedUrl "" = none
    ∧ extractSignedUrl "viewer.html?page=2" = none
    ∧ extractSignedUrl "viewer.html?file=a%2520b.pdf" = some "a%20b.pdf"
    ∧ extractSignedUrl s = none := by
  refine ⟨by decide, rfl, by decide, by decide, extractSignedUrl_no_query s h⟩

/-- Witness for `extractSignedUrl_spec` at the query-free input
"viewer.html". -/
theorem extractSignedUrl_spec_witness :
    '?' ∉ "viewer.html".data
    ∧ (extractSignedUrl "viewer.html?file=https%3A%2F%2Fs3.example.com%2Fa.pdf#view=fitH"
          = some "https://s3.example.com/a.pdf"
      ∧ extractSignedUrl "" = none
      ∧ extractSignedUrl "viewer.html?page=2" = none
      ∧ extractSignedUrl "viewer.html?file=a%2520b.pdf" = some "a%20b.pdf"
      ∧ extractSignedUrl "viewer.html" = none) :=
  ⟨by decide, extractSignedUrl_spec "viewer.html" (by decide)⟩

/-! ## Claim C5: outcome classification -/

/-- C5 counterexample: a download failure after fully successful navigation
(a document-level failure, which the claim's three-bucket rule would not
put in Failed) is classified into the `failed` bucket; the code has no
Partial bucket. -/
theorem two_bucket_counterexample : ¬ failedOnlyBeforeDocAttempt := by
  intro h
  have hx := h (Applicant.mk "Ana" "Lee") exTraceDownloadFail "download failed" rfl
  exact absurd hx (by decide)

/-- C5 (amended): every applicant's outcome is classified into exactly one
of two buckets — `succeeded` (skip or full success) and `failed` with a
reason (navigation failure, download failure, or exception) — and a
download failure after successful navigation lands in `failed` with the
reason "download failed". -/
theorem report_two_buckets (a : Applicant) (t : AppTrace) :
    ((processApplicant a t = Outcome.skipped ∨ processApplicant a t = Outcome.success) →
        runBatch [(a, t)] = ([applicantLabel a], []))
    ∧ (∀ r, processApplicant a t = Outcome.failure r →
        runBatch [(a, t)] = ([], [applicantLabel a ++ " - " ++ r]))
    ∧ (t.destState = none → t.goBackRaise = none →
        searchOpen a.first a.last t.search = Except.ok true →
        t.sidebarOk = true → t.appRow = Except.ok true →
        t.attachTab = Except.ok true → t.expandPdf = Except.ok true →
        t.downloadOk = false →
        processApplicant a t = Outcome.failure "download failed") := by
  refine ⟨?_, ?_, ?_⟩
  · intro h
    rcases h with h | h <;> simp [runBatch, h]
  · intro r h
    simp [runBatch, h]
  · intro h1 h2 h3 h4 h5 h6 h7 h8
    simp [processApplicant, h1, h2, h3, h4, h5, h6, h7, h8]

/-- Witness for `report_two_buckets`: navigation succeeds, the download
fails, and the applicant lands in the `failed` bucket with reason
"download failed". -/
theorem report_two_buckets_witness :
    searchOpen "Ana" "Lee" exTraceDownloadFail.search = Except.ok true
    ∧ processApplicant (Applicant.mk "Ana" "Lee") exTraceDownloadFail
        = Outcome.failure "download failed"
    ∧ runBatch [(Applicant.mk "Ana" "Lee", exTraceDownloadFail)]
        = ([], ["Ana Lee - download failed"]) :=
  ⟨rfl,
   (report_two_buckets (Applicant.mk "Ana" "Lee") exTraceDownloadFail).2.2
     rfl rfl rfl rfl rfl rfl rfl rfl,
   (report_two_buckets (Applicant.mk "Ana" "Lee") exTraceDownloadFail).2.1
     "download failed" rfl⟩

/-! ## Claim C6: filesystem layout -/

/-- C6 counterexample: the code writes a single flat file
`<root>/<safe(last)>_<safe(first)>.pdf`, not a per-applicant directory
containing `application.pdf`. -/
theorem per_applicant_dir_counterexample : ¬ perApplicantDirLayout := by
  intro h
  exact absurd (h ["gradcas_downloads"] (Applicant.mk "Ana" "Lee")) (by decide)

/-- C6 (amended): each applicant's download is persisted as the single flat
file `<download-root>/<safe(last)>_<safe(first)>.pdf`; every character of
that filename is a word character, a hyphen, or a dot. -/
theorem flat_file_layout (root : List String) (a : Applicant) :
    destPath root a = root ++ [clean a.last ++ "_" ++ clean a.first ++ ".pdf"]
    ∧ ∀ c ∈ (safe_filename a.first a.last).data,
        (wordOrHyphen c || c == '.') = true := by
  constructor
  · rfl
  · intro c hc
    have hdata : (safe_filename a.first a.last).data
        = ((clean a.last).data ++ ['_']) ++ (clean a.first).data ++ ['.', 'p', 'd', 'f'] := by
      simp [safe_filename, strData_append]
    rw [hdata] at hc
    simp only [List.mem_append, List.mem_cons, List.not_mem_nil, or_false] at hc
    rcases hc with ((hc | hc) | hc) | hc | hc | hc | hc
    · rw [clean_data] at hc
      obtain ⟨x, _, rfl⟩ := List.mem_map.mp hc
      simp [cleanChar_safe x]
    · subst hc; decide
    · rw [clean_data] at hc
      obtain ⟨x, _, rfl⟩ := List.mem_map.mp hc
      simp [cleanChar_safe x]
    · subst hc; decide
    · subst hc; decide
    · subst hc; decide
    · subst hc; decide

/-- Witness for `flat_file_layout` at the roster example applicant. -/
theorem flat_file_layout_witness :
    '.' ∈ (safe_filename "Ana" "Lee").data
    ∧ destPath [] (Applicant.mk "Ana" "Lee")
        = [clean "Lee" ++ "_" ++ clean "Ana" ++ ".pdf"]
    ∧ (wordOrHyphen '.' || '.' == '.') = true :=
  ⟨by decide,
   (flat_file_layout [] (Applicant.mk "Ana" "Lee")).1,
   (flat_file_layout [] (Applicant.mk "Ana" "Lee")).2 '.' (by decide)⟩

/-! ## Claim C7: the name normalizer -/

/-- C7: `clean` keeps word characters and hyphens, replaces every other
character with an underscore, so its output contains only word characters
and hyphens, and it is idempotent. -/
theorem clean_safe_idem (s : String) :
    (∀ c ∈ (clean s).data, wordOrHyphen c = true)
    ∧ clean (clean s) = clean s
    ∧ ∀ (c : Char), (wordOrHyphen c = false → cleanChar c = '_')
        ∧ (wordOrHyphen c = true → cleanChar c = c) := by
  refine ⟨?_, ?_, ?_⟩
  · intro c hc
    rw [clean_data] at hc
    obtain ⟨x, _, rfl⟩ := List.mem_map.mp hc
    exact cleanChar_safe x
  · show String.mk ((clean s).data.map cleanChar) = clean s
    rw [clean_data]
    show String.mk ((s.data.map cleanChar).map cleanChar) = String.mk (s.data.map cleanChar)
    congr 1
    rw [List.map_map]
    exact List.map_congr_left (fun a _ => cleanChar_idem a)
  · intro c
    constructor
    · intro h
      simp [cleanChar, h]
    · intro h
      simp [cleanChar, h]

/-- Witness for `clean_safe_idem` on "Ana Lee" (the space becomes an
underscore, which is itself a word character; cleaning twice is cleaning
once). -/
theorem clean_safe_idem_witness :
    '_' ∈ (clean "Ana Lee").data
    ∧ wordOrHyphen '_' = true
    ∧ clean (clean "Ana Lee") = clean "Ana Lee" :=
  ⟨by decide,
   (clean_safe_idem "Ana Lee").1 '_' (by decide),
   (clean_safe_idem "Ana Lee").2.1⟩

/-! ## Claim C8: malformed roster terminates before the session starts -/

/-- C8: if a configured name column is missing from the header row, the run
exits with an error naming the missing column and listing the columns
found, no browser session is started, and no applicant is processed. -/
theorem missing_column_exits (headers : List (Option String))
    (rows : List (List (Option String))) (fc lc : String) (env : List AppTrace) :
    ((some fc) ∉ headers →
        mainRun headers rows fc lc env
          = RunResult.mk (some (RosterError.mk fc headers)) false [] [])
    ∧ ((some fc) ∈ headers → (some lc) ∉ headers →
        mainRun headers rows fc lc env
          = RunResult.mk (some (RosterError.mk lc headers)) false [] []) := by
  constructor
  · intro h
    have h1 := firstMatchIdx_decide_none (some fc) headers h
    simp [mainRun, load_applicants, h1]
  · intro hmem h
    obtain ⟨i, hi⟩ := firstMatchIdx_decide_mem (some fc) headers hmem
    have h2 := firstMatchIdx_decide_none (some lc) headers h
    simp [mainRun, load_applicants, hi, h2]

/-- Witness for `missing_column_exits`: a header row without the
"First Name" column makes the run exit before the browser starts. -/
theorem missing_column_exits_witness :
    (some "First Name") ∉ ([some "Last Name", some "Email"] : List (Option String))
    ∧ mainRun [some "Last Name", some "Email"] [] "First Name" "Last Name" []
        = RunResult.mk
            (some (RosterError.mk "First Name" [some "Last Name", some "Email"]))
            false [] [] :=
  ⟨by decide,
   (missing_column_exits [some "Last Name", some "Email"] [] "First Name" "Last Name" []).1
     (by decide)⟩

/-! ## Claim C9: OCR threshold in the PDF-to-text converter -/

/-- C9: a page whose stripped direct text reaches the threshold (default
50) is emitted directly and never OCR'd; below the threshold OCR is
attempted exactly when available, and otherwise the page degrades to the
scanned-page placeholder marker. -/
theorem ocr_threshold_spec (ocrAvailable : Bool) (ocrThreshold : Nat)
    (n : Nat) (p : PdfPage) :
    (ocrThreshold ≤ (pyStrip p.rawText).length →
        ocrAttempted ocrAvailable ocrThreshold p = false
        ∧ pageOutput ocrAvailable ocrThreshold n p
            = "--- Page " ++ toString n ++ " ---\n" ++ pyStrip p.rawText)
    ∧ ((pyStrip p.rawText).length < ocrThreshold → ocrAvailable = true →
        ocrAttempted ocrAvailable ocrThreshold p = true)
    ∧ ((pyStrip p.rawText).length < ocrThreshold → ocrAvailable = false →
        ocrAttempted ocrAvailable ocrThreshold p = false
        ∧ pageOutput ocrAvailable ocrThreshold n p
            = "--- Page " ++ toString n ++ " [scanned, OCR not available] ---")
    ∧ ocrThresholdDefault = 50 := by
  refine ⟨?_, ?_, ?_, rfl⟩
  · intro h
    have h' : ¬ (pyStrip p.rawText).length < ocrThreshold := by omega
    constructor
    · simp [ocrAttempted, h']
    · simp [pageOutput, h]
  · intro h ha
    simp [ocrAttempted, h, ha]
  · intro h ha
    have h' : ¬ ocrThreshold ≤ (pyStrip p.rawText).length := by omega
    constructor
    · simp [ocrAttempted, ha]
    · simp [pageOutput, h', ha]

/-- Witness for `ocr_threshold_spec`: a page with a long directly-extracted
text is emitted directly and not OCR'd even with OCR available. -/
theorem ocr_threshold_spec_witness :
    50 ≤ (pyStrip exPage.rawText).length
    ∧ (ocrAttempted true 50 exPage = false
        ∧ pageOutput true 50 1 exPage
            = "--- Page " ++ toString 1 ++ " ---\n" ++ pyStrip exPage.rawText) :=
  ⟨by decide, (ocr_threshold_spec true 50 1 exPage).1 (by decide)⟩

/-! ## Claim C10: the final report partitions the roster -/

/-- C10: after a run, `succeeded` is exactly the roster-ordered projection
of the non-failing applicants (skip included), `failed` is exactly the
roster-ordered projection of the failing ones with their reasons, the two
lengths sum to the roster length, and a skipped applicant's label appears
in `succeeded`. -/
theorem batch_partition (xs : List (Applicant × AppTrace)) :
    (runBatch xs).1 =
        (xs.filter (fun p => !isFailure (processApplicant p.1 p.2))).map
          (fun p => applicantLabel p.1)
    ∧ (runBatch xs).2 = xs.filterMap failEntry
    ∧ (runBatch xs).1.length + (runBatch xs).2.length = xs.length
    ∧ ∀ p ∈ xs, processApplicant p.1 p.2 = Outcome.skipped →
        applicantLabel p.1 ∈ (runBatch xs).1 := by
  refine ⟨runBatch_fst xs, runBatch_snd xs, runBatch_length xs, ?_⟩
  intro p hp hskip
  rw [runBatch_fst xs]
  refine List.mem_map.mpr ⟨p, ?_, rfl⟩
  refine List.mem_filter.mpr ⟨hp, ?_⟩
  simp [hskip, isFailure]

/-- Witness for `batch_partition`: a singleton roster whose applicant is
skipped because the destination file exists; its label lands in
`succeeded`. -/
theorem batch_partition_witness :
    exSkipPair ∈ [exSkipPair]
    ∧ processApplicant exSkipPair.1 exSkipPair.2 = Outcome.skipped
    ∧ applicantLabel exSkipPair.1 ∈ (runBatch [exSkipPair]).1 :=
  ⟨List.mem_singleton.mpr rfl, rfl,
   (batch_partition [exSkipPair]).2.2.2 exSkipPair (List.mem_singleton.mpr rfl) rfl⟩
